import Mathlib

/-!
Shallow embedding of the reddit content-downloader core
(`src/reddit/handler.py`, `src/reddit/config.py`, `src/utils/validators.py`,
`src/reddit/models.py`) and proofs about it.

Machine conventions used throughout:
* Python strings are Lean `String`s (both are sequences of unicode scalar
  values, so Python `len` is `String.length` and slicing is `List.take` on
  `String.toList`).
* Python `None` is `Option.none`; Python truthiness of an optional string
  (`if post.url:`) is `url ≠ none ∧ url ≠ some ""`.
* The filesystem is an explicit state value threaded through the functions;
  exceptions are an explicit `error` constructor threaded the same way.
-/

namespace RedditBot

/-! ## Data model (`src/reddit/models.py`, `src/reddit/config.py`) -/

/-- One comment record, as built in `RedditHandler._convert_submission_to_post`
(the PRAW comment attributes the handler reads: author, body, created_utc,
score, stickied). `created_utc` is kept as its printed form. -/
structure Comment where
  author : String
  body : String
  created_utc : String
  score : Int
  stickied : Bool
deriving DecidableEq, Repr

/-- `RedditPost` dataclass from `src/reddit/models.py`.  `gallery_data` is the
list of `media_id` strings found at `gallery_data['items'][i]['media_id']`;
`none` models Python `None`. -/
structure RedditPost where
  id : String
  title : String
  author : String
  created_utc : String
  score : Int
  url : Option String
  selftext : String
  subreddit : String
  comments : List Comment
  is_gallery : Bool
  gallery_data : Option (List String)
deriving DecidableEq, Repr

/-- `SubredditConfig` dataclass from `src/reddit/config.py`. -/
structure SubredditConfig where
  name : String
  filter_type : String
  time_filter : Option String
  limit : Int
  download_media : Bool
  download_comments : Bool
  max_comments : Int
  skip_no_media : Bool
  batch_size : Int
  timeout : Int
deriving DecidableEq, Repr

/-- `DownloadResult` dataclass from `src/reddit/models.py`. -/
structure DownloadResult where
  success : Bool
  downloaded_files : List String
  errors : List String
deriving DecidableEq, Repr

/-! ## String helpers modelling the Python library calls used by the code -/

/-- Python slicing `s[:n]` (take the first `n` code points). -/
def pyTake (s : String) (n : Nat) : String := String.mk (s.toList.take n)

/-- Python `str.strip()`: drop leading and trailing whitespace. -/
def pyStrip (s : String) : String :=
  String.mk (((s.toList.dropWhile Char.isWhitespace).reverse.dropWhile
    Char.isWhitespace).reverse)

/-- `s.lower()` / `.toLower`, computed characterwise. -/
def strLower (s : String) : String := String.mk (s.toList.map Char.toLower)

/-- `p` is a prefix of `s` (characterwise). -/
def strPre (p s : String) : Bool := p.toList.isPrefixOf s.toList

/-- `s.endswith(suf)` (characterwise). -/
def strEnds (suf s : String) : Bool :=
  List.isPrefixOf suf.toList.reverse s.toList.reverse

/-- Drop the first `n` characters of `s`. -/
def strDrop (s : String) (n : Nat) : String := String.mk (s.toList.drop n)

/-- `needle` occurs as a contiguous sublist of `hay` (Python `in` on lists). -/
def listContainsSub : List Char → List Char → Bool
  | needle, [] => needle.isEmpty
  | needle, c :: rest => needle.isPrefixOf (c :: rest) || listContainsSub needle rest

/-- Python `needle in hay` for strings (substring containment). -/
def containsSub (needle hay : String) : Bool :=
  listContainsSub needle.toList hay.toList

/-- The character class `[\w-]` used by the URL regexes. -/
def isWordDash (c : Char) : Bool := c.isAlphanum || c = '_' || c = '-'

/-- `s` is nonempty and its first character is in `[\w-]` (models the
mandatory `[\w-]+` tail of the regexes, which may be followed by anything). -/
def firstIsWordDash (s : String) : Bool :=
  match s.toList with
  | [] => false
  | c :: _ => isWordDash c

/-- Strip an optional `http://`/`https://` scheme then an optional `www.`,
modelling the `(?:https?://)?(?:www\.)?` groups of the regexes in
`handler.py`. -/
def dropHttpWww (url : String) : String :=
  let u :=
    if strPre "https://" url then strDrop url 8
    else if strPre "http://" url then strDrop url 7
    else url
  if strPre "www." u then strDrop u 4 else u

/-- `re.match(lit ++ "[\\w-]+", r)` for a literal pattern `lit`: `r` starts
with `lit` followed by at least one word/dash character. -/
def matchLitWord (lit r : String) : Bool :=
  strPre lit r && firstIsWordDash (strDrop r lit.toList.length)

/-- The remainder of the character list after the first occurrence of
`"://"`, if any. -/
def afterSchemeSep : List Char → Option (List Char)
  | [] => none
  | c :: rest =>
    if List.isPrefixOf [':', '/', '/'] (c :: rest) then some (rest.drop 2)
    else afterSchemeSep rest

/-- Model of `urllib.parse.urlparse(url).path`: with a `"://"` scheme
separator present, the part of the remainder from the first `/` up to the
first `?` or `#`; without a scheme, the whole string up to `?`/`#`. -/
def urlPath (url : String) : String :=
  match afterSchemeSep url.toList with
  | none => String.mk (url.toList.takeWhile (fun c => c ≠ '?' && c ≠ '#'))
  | some rem =>
    String.mk ((rem.dropWhile
        (fun c => c ≠ '/' && c ≠ '?' && c ≠ '#')).takeWhile
        (fun c => c ≠ '?' && c ≠ '#'))

/-- Model of `os.path.splitext(p)[1]`: the extension of the last path
component, from its last dot, where leading dots of the component never
start an extension. -/
def splitextExt (p : String) : String :=
  let base := (p.toList.reverse.takeWhile (fun c => c ≠ '/')).reverse
  let stripped := base.dropWhile (fun c => c = '.')
  let rev := stripped.reverse
  if rev.contains '.' then
    String.mk ('.' :: (rev.takeWhile (fun c => c ≠ '.')).reverse)
  else ""

/-- `os.path.join` as used by the handler (POSIX-style). -/
def pathJoin (a b : String) : String := a ++ "/" ++ b

/-! ## URL predicates (`RedditHandler._is_*`) -/

/-- `RedditHandler._is_youtube_url`. -/
def is_youtube_url (url : String) : Bool :=
  let r := dropHttpWww url
  matchLitWord "youtube.com/watch?v=" r || matchLitWord "youtu.be/" r

/-- `RedditHandler._is_imgur_url`: `'imgur.com' in url`. -/
def is_imgur_url (url : String) : Bool := containsSub "imgur.com" url

/-- `RedditHandler._is_redgifs_url`: the two `re.match` patterns, or
`'redgifs.com' in url`. -/
def is_redgifs_url (url : String) : Bool :=
  let r := dropHttpWww url
  (matchLitWord "redgifs.com/watch/" r || matchLitWord "redgifs.com/i/" r)
    || containsSub "redgifs.com" url

/-- `RedditHandler._is_image_url`: URL path, lower-cased, ends with one of
`.jpg`, `.jpeg`, `.png`, `.gif`. -/
def is_image_url (url : String) : Bool :=
  let p := strLower (urlPath url)
  [".jpg", ".jpeg", ".png", ".gif"].any (fun e => strEnds e p)

/-- `RedditHandler._is_gallery`: `post.is_gallery and post.gallery_data is
not None`. -/
def is_gallery (post : RedditPost) : Bool :=
  post.is_gallery && post.gallery_data.isSome

/-- `RedditHandler._is_video`: URL path, lower-cased, ends with one of
`.mp4`, `.webm`, `.mov`. -/
def is_video (url : String) : Bool :=
  let p := strLower (urlPath url)
  [".mp4", ".webm", ".mov"].any (fun e => strEnds e p)

/-- The combined special-media guard of `download_content` line 236:
youtube, imgur or redgifs. -/
def isExternalHosted (url : String) : Bool :=
  is_youtube_url url || is_imgur_url url || is_redgifs_url url

/-- Media classification kinds (the five branches of the dispatch in
`download_content`, lines 234-258). -/
inductive MediaKind where
  | externalHosted
  | directImage
  | gallery
  | video
  | noMedia
deriving DecidableEq, Repr

/-- The media classification actually performed by `download_content`
(lines 236-258): the `if`/`elif` chain, in source order — external hosts
first, then direct-image extension, then gallery, then video. -/
def classify (post : RedditPost) : MediaKind :=
  match post.url with
  | none => MediaKind.noMedia
  | some u =>
    if isExternalHosted u then MediaKind.externalHosted
    else if is_image_url u then MediaKind.directImage
    else if is_gallery post then MediaKind.gallery
    else if is_video u then MediaKind.video
    else MediaKind.noMedia

/-- Modelled from the spec: the classification order the specification
states (external hosts, then gallery, then direct-image extension, then
video), for comparison with `classify`. -/
def classify_spec (post : RedditPost) : MediaKind :=
  match post.url with
  | none => MediaKind.noMedia
  | some u =>
    if isExternalHosted u then MediaKind.externalHosted
    else if is_gallery post then MediaKind.gallery
    else if is_image_url u then MediaKind.directImage
    else if is_video u then MediaKind.video
    else MediaKind.noMedia

/-! ## Validation (`SubredditConfig.validate`, `validators.validate_limit`) -/

/-- `SubredditConfig.validate` from `src/reddit/config.py`: `none` means the
configuration is accepted, `some msg` models `raise ValidationError(msg)`.
The checks appear in source order. -/
def SubredditConfig.validate (c : SubredditConfig) : Option String :=
  if c.name = "" then some "Subreddit name is required"
  else if !(["hot", "new", "top", "rising"].contains c.filter_type) then
    some "Invalid filter type. Must be one of: hot, new, top, rising"
  else if c.filter_type = "top"
      && !((match c.time_filter with
            | none => false
            | some t => t ≠ "" &&
                ["all", "day", "hour", "month", "week", "year"].contains t)) then
    some "Time filter is required for top posts. Must be one of: all, day, hour, month, week, year"
  else if c.limit < 1 then some "Limit must be greater than 0"
  else if c.batch_size < 1 then some "Batch size must be greater than 0"
  else if c.timeout < 1 then some "Timeout must be greater than 0"
  else if c.max_comments < 0 then
    some "Max comments must be greater than or equal to 0"
  else none

/-- `validate_limit` from `src/utils/validators.py` (defined there but never
called from the configuration/fetch path). -/
def validate_limit (limit : Int) : Option String :=
  if limit < 1 then some "Limit must be at least 1"
  else if limit > 100 then some "Limit cannot exceed 100 posts"
  else none

/-- `reddit-main.py` lines 74-84: a subreddit configuration is kept for
processing (and its fetch attempted) exactly when `SubredditConfig.validate`
raises nothing. -/
def feedAccepted (c : SubredditConfig) : Bool :=
  (SubredditConfig.validate c).isNone

/-! ## Comment ranking (`_convert_submission_to_post`, lines 288-296) -/

/-- One step of the stable descending insertion sort: insert `c` after every
element of strictly larger score, before the first element of equal or
smaller score.  Because `sortDesc` inserts elements from the right, equal
scores keep their original relative order — the behaviour of Python's
stable `list.sort(key=lambda x: x.score, reverse=True)`. -/
def insertByScore (c : Comment) : List Comment → List Comment
  | [] => [c]
  | x :: xs => if c.score < x.score then x :: insertByScore c xs else c :: x :: xs

/-- Stable sort by score descending (Python `sort(key=..., reverse=True)`). -/
def sortDesc : List Comment → List Comment
  | [] => []
  | x :: xs => insertByScore x (sortDesc xs)

/-- The comment selection of `_convert_submission_to_post`: drop stickied
comments, stable-sort by score descending, take the first `cap`
(`all_comments[:config.max_comments]`). -/
def rank (nodes : List Comment) (cap : Nat) : List Comment :=
  (sortDesc (nodes.filter (fun c => !c.stickied))).take cap

/-! ## Synopsis (`RedditHandler._generate_summary`) -/

/-- `RedditHandler._generate_summary`, with the OpenAI chat-completion call
abstracted as `resp`: `some s` is a successful call returning message
content `s`, `none` is any exception raised by the call (the `except`
branch). -/
def generate_summary (title _comments : String) (resp : Option String) : String :=
  match resp with
  | some s =>
    let summary := pyStrip s
    if summary.length > 250 then pyTake summary 247 ++ "..." else summary
  | none =>
    if title.length > 250 then pyTake title 247 ++ "..." else title

/-- `RedditHandler._get_extension_from_content_type`. -/
def get_extension_from_content_type (content_type : String) : String :=
  let c := strLower content_type
  if containsSub "jpeg" c || containsSub "jpg" c then ".jpg"
  else if containsSub "png" c then ".png"
  else if containsSub "gif" c then ".gif"
  else if containsSub "mp4" c then ".mp4"
  else if containsSub "webm" c then ".webm"
  else ""

/-! ## Filesystem and external-effect model -/

/-- An explicit filesystem: the set of existing directories and the files
with their contents.  `write` models `open(p, 'w')` + writes (replacing any
previous file at the path); `rmtree` models `shutil.rmtree`. -/
structure FS where
  dirs : List String
  files : List (String × String)
deriving DecidableEq, Repr

/-- `os.makedirs(d, exist_ok=True)`. -/
def FS.mkdir (fs : FS) (d : String) : FS :=
  if fs.dirs.contains d then fs else { fs with dirs := d :: fs.dirs }

/-- Create/overwrite the file at `p` with content `c`. -/
def FS.write (fs : FS) (p c : String) : FS :=
  { fs with files := (p, c) :: fs.files.filter (fun f => f.1 ≠ p) }

/-- `os.path.exists` for a directory. -/
def FS.dirExists (fs : FS) (d : String) : Bool := fs.dirs.contains d

/-- `os.path.exists` for a file. -/
def FS.fileExists (fs : FS) (p : String) : Bool := fs.files.any (fun f => f.1 = p)

/-- `p` lies strictly below directory `d`. -/
def underDir (d p : String) : Bool := strPre (d ++ "/") p

/-- `shutil.rmtree d`: remove `d` and everything below it. -/
def FS.rmtree (fs : FS) (d : String) : FS :=
  { dirs := fs.dirs.filter (fun x => x ≠ d && !underDir d x),
    files := fs.files.filter (fun f => !underDir d f.1) }

/-- One HTTP response for `requests.get(url, stream=True)`: status code,
`content-type` header, the chunk sequence of `iter_content`, and
`failAfter = some k` when the connection raises after `k` chunks were
already written (a mid-stream network failure). -/
structure HttpResp where
  status : Int
  content_type : String
  chunks : List String
  failAfter : Option Nat

/-- The ambient effects of one `download_content` run: today's date string,
which `open`-for-write calls raise (and with what message), the OpenAI
summarization outcome, the HTTP oracle (`none` = `requests.get` itself
raises) and the yt-dlp oracle (`some ext` = successful download with that
extension). -/
structure Env where
  today : String
  writeError : String → Option String
  summarizer : Option String
  http : String → Option HttpResp
  ytdlp : String → Option String

/-! ## Media retrieval (`_download_image` / `_download_video` /
`_download_gallery` / `_download_with_yt_dlp`) -/

/-- `RedditHandler._download_image`.  On status 200 the file is opened and
the chunks are written one by one (empty chunks skipped, as `if chunk:`
does); a mid-stream failure (`failAfter = some k`) raises after `k` chunks,
which the function's own `except` turns into `None` — the partially written
file stays on disk.  Any other status, or a failure of `requests.get`
itself, returns `None` without touching the filesystem.
`imageExtension` is the extension resolution of lines 347-352: content-type
first, else URL path extension, else `.jpg`. -/
def imageExtension (url : String) (r : HttpResp) : String :=
  let ext0 := get_extension_from_content_type r.content_type
  let ext1 := if ext0 = "" then splitextExt (urlPath url) else ext0
  if ext1 = "" then ".jpg" else ext1

/-- `RedditHandler._download_image` (see `imageExtension` above). -/
def download_image (env : Env) (url output_dir post_id : String) (fs : FS) :
    Option String × FS :=
  match env.http url with
  | none => (none, fs)
  | some r =>
    if r.status = 200 then
      let filepath := pathJoin output_dir (post_id ++ imageExtension url r)
      match r.failAfter with
      | none =>
        (some filepath,
          fs.write filepath (String.join (r.chunks.filter (fun c => c ≠ ""))))
      | some k =>
        (none,
          fs.write filepath
            (String.join ((r.chunks.take k).filter (fun c => c ≠ ""))))
    else (none, fs)

/-- `RedditHandler._download_video`: same streaming logic, extension from
the URL path with default `.mp4`, no content-type lookup. -/
def download_video (env : Env) (url output_dir post_id : String) (fs : FS) :
    Option String × FS :=
  match env.http url with
  | none => (none, fs)
  | some r =>
    if r.status = 200 then
      let ext0 := splitextExt (urlPath url)
      let filepath :=
        pathJoin output_dir (post_id ++ (if ext0 = "" then ".mp4" else ext0))
      match r.failAfter with
      | none =>
        (some filepath,
          fs.write filepath (String.join (r.chunks.filter (fun c => c ≠ ""))))
      | some k =>
        (none,
          fs.write filepath
            (String.join ((r.chunks.take k).filter (fun c => c ≠ ""))))
    else (none, fs)

/-- `RedditHandler._download_gallery`: for each `media_id`, synthesize
`https://i.redd.it/{media_id}.jpg` and retrieve it as an image named
`{post.id}_{media_id}`; failed items are dropped, successes kept. -/
def galleryLoop (env : Env) (pid output_dir : String) :
    List String → List String → FS → List String × FS
  | [], acc, fs => (acc, fs)
  | mid :: rest, acc, fs =>
    let url := "https://i.redd.it/" ++ mid ++ ".jpg"
    let r := download_image env url output_dir (pid ++ "_" ++ mid) fs
    galleryLoop env pid output_dir rest (acc ++ r.1.toList) r.2

/-- `RedditHandler._download_gallery` proper: run the item loop
(`galleryLoop` above) from the empty accumulator when gallery data is
present. -/
def download_gallery (env : Env) (post : RedditPost) (output_dir : String)
    (fs : FS) : List String × FS :=
  match post.gallery_data with
  | none => ([], fs)
  | some ids => galleryLoop env post.id output_dir ids [] fs

/-- `RedditHandler._download_with_yt_dlp`: delegate to yt-dlp; on success
the file `{post_id}.{ext}` appears in `output_dir` and its path is
returned, on any failure `None`. -/
def download_with_yt_dlp (env : Env) (url output_dir post_id : String)
    (fs : FS) : Option String × FS :=
  match env.ytdlp url with
  | none => (none, fs)
  | some ext =>
    let filepath := pathJoin output_dir (post_id ++ "." ++ ext)
    (some filepath, fs.write filepath "")

/-- The media dispatch of `download_content` (lines 234-258), driven by
`classify` (whose cases are the `if`/`elif` chain in source order): returns
the media files retrieved, the resulting `has_media` flag, and the
filesystem. -/
def mediaStep (env : Env) (post : RedditPost) (u media_dir : String)
    (fs : FS) : List String × Bool × FS :=
  match classify post with
  | MediaKind.externalHosted =>
    let r := download_with_yt_dlp env u media_dir post.id fs
    (r.1.toList, r.1.isSome, r.2)
  | MediaKind.directImage =>
    let r := download_image env u media_dir post.id fs
    (r.1.toList, r.1.isSome, r.2)
  | MediaKind.gallery =>
    let r := download_gallery env post media_dir fs
    (r.1, !r.1.isEmpty, r.2)
  | MediaKind.video =>
    let r := download_video env u media_dir post.id fs
    (r.1.toList, r.1.isSome, r.2)
  | MediaKind.noMedia => ([], false, fs)

/-! ## `download_content` -/

/-- The separator line `"-"*80` between comment entries. -/
def dashSep : String := String.mk (List.replicate 80 '-')

/-- One entry of `comments.txt` (lines 212-217). -/
def commentText (c : Comment) : String :=
  "Author: " ++ c.author ++ "\n" ++ "Created: " ++ c.created_utc ++ "\n"
    ++ "Score: " ++ toString c.score ++ "\n" ++ "Content:\n" ++ c.body
    ++ "\n\n" ++ dashSep ++ "\n\n"

/-- The accumulated `comments_content` string. -/
def commentsContent (cs : List Comment) : String :=
  String.join (cs.map commentText)

/-- Content of `post_info.txt` (lines 184-191); a `None` URL prints as
`"None"` in the f-string, and the `Content:` section appears only for a
truthy `selftext`. -/
def postInfoContent (post : RedditPost) : String :=
  let urlStr := match post.url with | none => "None" | some u => u
  "Title: " ++ post.title ++ "\n" ++ "Author: " ++ post.author ++ "\n"
    ++ "Created: " ++ post.created_utc ++ "\n"
    ++ "Score: " ++ toString post.score ++ "\n" ++ "URL: " ++ urlStr ++ "\n\n"
    ++ (if post.selftext ≠ "" then "Content:\n" ++ post.selftext else "")

/-- Outcome of the `try` body of `download_content` (before the outer
`except`): normal completion with the accumulated files, media errors and
`has_media` flag, or an uncaught exception with message, the files written
so far, the `has_media` value at the raise point, and the filesystem. -/
inductive BodyRes where
  | ok (files errors : List String) (has_media : Bool) (fs : FS)
  | exn (msg : String) (files : List String) (has_media : Bool) (fs : FS)

/-- Final part of the `try` body: the media block (lines 229-261), guarded
by the truthiness of `post.url`. -/
def afterText (env : Env) (post : RedditPost) (post_dir : String)
    (files : List String) (fs : FS) : BodyRes :=
  match post.url with
  | none => BodyRes.ok files [] false fs
  | some u =>
    if u ≠ "" then
      let media_dir := pathJoin post_dir "media"
      let r := mediaStep env post u media_dir (fs.mkdir media_dir)
      BodyRes.ok (files ++ r.1) [] r.2.1 r.2.2
    else BodyRes.ok files [] false fs

/-- The `try` body of `download_content` (lines 180-261): text artifacts,
then the optional comments + summary block, then the media block.  Writing
`url.txt` for a post with `url=None` raises `TypeError` (`f.write(None)`),
modelled by the fixed message below. -/
def download_body (env : Env) (post : RedditPost) (cfg : SubredditConfig)
    (post_dir : String) (fs : FS) : BodyRes :=
  let info_path := pathJoin post_dir "post_info.txt"
  match env.writeError info_path with
  | some m => BodyRes.exn m [] false fs
  | none =>
  let fs := fs.write info_path (postInfoContent post)
  let title_path := pathJoin post_dir "title.txt"
  match env.writeError title_path with
  | some m => BodyRes.exn m [info_path] false fs
  | none =>
  let fs := fs.write title_path post.title
  let url_path := pathJoin post_dir "url.txt"
  match post.url with
  | none =>
    BodyRes.exn "write() argument must be str, not None"
      [info_path, title_path] false fs
  | some u =>
  match env.writeError url_path with
  | some m => BodyRes.exn m [info_path, title_path] false fs
  | none =>
  let fs := fs.write url_path u
  let files := [info_path, title_path, url_path]
  if cfg.download_comments && !post.comments.isEmpty then
    let comments_path := pathJoin post_dir "comments.txt"
    match env.writeError comments_path with
    | some m => BodyRes.exn m files false fs
    | none =>
      let fs := fs.write comments_path (commentsContent post.comments)
      let summary :=
        generate_summary post.title (commentsContent post.comments)
          env.summarizer
      let summary_path := pathJoin post_dir "post-summary.txt"
      match env.writeError summary_path with
      | some m => BodyRes.exn m (files ++ [comments_path]) false fs
      | none =>
        let fs := fs.write summary_path summary
        afterText env post post_dir
          (files ++ [comments_path, summary_path]) fs
  else
    afterText env post post_dir files fs

/-- The post directory `{output_dir}/{today}/{subreddit}_{post.id}`. -/
def postDirOf (env : Env) (post : RedditPost) (output_dir : String) : String :=
  pathJoin (pathJoin output_dir env.today) (post.subreddit ++ "_" ++ post.id)

/-- `RedditHandler.download_content`, with the internal `has_media` flag
exposed as the second component: create the date and post directories
(outside the `try`), run the body, then apply the skip-no-media discard
(lines 263-267) on normal completion or the `except` branch cleanup
(lines 271-276) on an exception. -/
def download_content_full (env : Env) (post : RedditPost)
    (cfg : SubredditConfig) (output_dir : String) (fs : FS) :
    (DownloadResult × FS) × Bool :=
  let date_dir := pathJoin output_dir env.today
  let fs := fs.mkdir date_dir
  let post_dir := pathJoin date_dir (post.subreddit ++ "_" ++ post.id)
  let fs := fs.mkdir post_dir
  match download_body env post cfg post_dir fs with
  | BodyRes.ok files errs hm fs =>
    if cfg.skip_no_media && !hm then
      ((⟨true, [], []⟩, fs.rmtree post_dir), hm)
    else ((⟨true, files, errs⟩, fs), hm)
  | BodyRes.exn m files hm fs =>
    if cfg.skip_no_media && !hm && fs.dirExists post_dir then
      ((⟨false, files, [m]⟩, fs.rmtree post_dir), hm)
    else ((⟨false, files, [m]⟩, fs), hm)

/-- `RedditHandler.download_content` as the caller sees it. -/
def download_content (env : Env) (post : RedditPost) (cfg : SubredditConfig)
    (output_dir : String) (fs : FS) : DownloadResult × FS :=
  (download_content_full env post cfg output_dir fs).1

/-! ## Concrete example inputs used by the counterexamples and witnesses -/

/-- An empty filesystem. -/
def fsEmpty : FS := { dirs := [], files := [] }

/-- An environment where every external call behaves benignly: writes
succeed, the summarizer raises (hitting the deterministic fallback), HTTP
and yt-dlp find nothing. -/
def envBase : Env :=
  { today := "2026-10-12", writeError := fun _ => none, summarizer := none,
    http := fun _ => none, ytdlp := fun _ => none }

/-- A typical valid configuration (discussion on, discard off). -/
def cfgBase : SubredditConfig :=
  { name := "pics", filter_type := "hot", time_filter := none, limit := 10,
    download_media := true, download_comments := true, max_comments := 5,
    skip_no_media := false, batch_size := 5, timeout := 30 }

/-- A configuration with `limit = 150`, otherwise valid. -/
def cfgLimit150 : SubredditConfig := { cfgBase with limit := 150 }

/-- A gallery post whose URL also carries a direct-image extension: the
input on which the two classification orders disagree. -/
def galleryImagePost : RedditPost :=
  { id := "abc", title := "t", author := "a", created_utc := "2024",
    score := 5, url := some "https://example.com/a.jpg", selftext := "",
    subreddit := "pics", comments := [], is_gallery := true,
    gallery_data := some ["m1"] }

/-- A post with an empty (falsy) URL and an empty discussion. -/
def postEmpty : RedditPost := { galleryImagePost with
  url := some "", is_gallery := false, gallery_data := none }

/-- `postEmpty` with one comment. -/
def postOneComment : RedditPost := { postEmpty with
  comments := [{ author := "u", body := "hello", created_utc := "d",
                 score := 3, stickied := false }] }

/-- A malformed post: `url = None`. -/
def postNoUrl : RedditPost := { postEmpty with url := none }

/-- An HTTP oracle that answers every GET with a 200 JPEG in two chunks. -/
def envHttpOk : Env := { envBase with
  http := fun _ => some { status := 200, content_type := "image/jpeg",
                          chunks := ["ab", "cd"], failAfter := none } }

/-- A 200 JPEG response whose connection drops after the first of two
chunks is written. -/
def respMidFail : HttpResp :=
  { status := 200, content_type := "image/jpeg", chunks := ["ab", "cd"],
    failAfter := some 1 }

/-- An HTTP oracle whose connection drops after the first chunk is
written. -/
def envMidFail : Env := { envBase with http := fun _ => some respMidFail }

/-- An environment in which opening `post_info.txt` raises. -/
def envInfoFail : Env := { envBase with
  writeError := fun p =>
    if p = "out/2026-10-12/pics_abc/post_info.txt" then some "disk full"
    else none }

/-- `cfgBase` with the discard-on-no-media flag set and discussion off. -/
def cfgSkip : SubredditConfig :=
  { cfgBase with skip_no_media := true, download_comments := false }

/-- `cfgBase` with `download_media := false` (and discussion off). -/
def cfgNoMedia : SubredditConfig :=
  { cfgBase with download_media := false, download_comments := false }

/-- The filesystem of a `BodyRes`, whichever way the body ended. -/
def BodyRes.fsOut : BodyRes → FS
  | BodyRes.ok _ _ _ fs => fs
  | BodyRes.exn _ _ _ fs => fs

/-- Shorthand for the C6 scenario comment with a given score and body. -/
def mkComment (s : Int) (b : String) : Comment :=
  { author := "u", body := b, created_utc := "d", score := s,
    stickied := false }

/-- The five discussion nodes of the spec scenario, scores `[3,10,10,1,7]`. -/
def scenarioComments : List Comment :=
  [mkComment 3 "c0", mkComment 10 "c1", mkComment 10 "c2", mkComment 1 "c3",
   mkComment 7 "c4"]

/-! ## Helper lemmas -/

lemma length_pyTake (s : String) (n : Nat) : (pyTake s n).length ≤ n := by
  show (s.data.take n).length ≤ n
  rw [List.length_take]
  exact min_le_left _ _

lemma mem_insertByScore {a c : Comment} {l : List Comment} :
    a ∈ insertByScore c l ↔ a = c ∨ a ∈ l := by
  induction l with
  | nil => simp [insertByScore]
  | cons x xs ih =>
    simp only [insertByScore]
    split
    · simp only [List.mem_cons, ih]
      tauto
    · simp only [List.mem_cons]

lemma pairwise_insertByScore {c : Comment} {l : List Comment}
    (h : List.Pairwise (fun a b => b.score ≤ a.score) l) :
    List.Pairwise (fun a b => b.score ≤ a.score) (insertByScore c l) := by
  induction l with
  | nil => simp [insertByScore]
  | cons x xs ih =>
    obtain ⟨hx, hxs⟩ := List.pairwise_cons.mp h
    simp only [insertByScore]
    split
    case isTrue hlt =>
      refine List.pairwise_cons.mpr ⟨?_, ih hxs⟩
      intro y hy
      rcases mem_insertByScore.mp hy with rfl | hy'
      · omega
      · exact hx y hy'
    case isFalse hge =>
      refine List.pairwise_cons.mpr ⟨?_, h⟩
      intro y hy
      rcases List.mem_cons.mp hy with rfl | hy'
      · omega
      · have := hx y hy'
        omega

lemma sortDesc_pairwise (l : List Comment) :
    List.Pairwise (fun a b => b.score ≤ a.score) (sortDesc l) := by
  induction l with
  | nil => simp [sortDesc]
  | cons x xs ih => exact pairwise_insertByScore ih

lemma length_insertByScore (c : Comment) (l : List Comment) :
    (insertByScore c l).length = l.length + 1 := by
  induction l with
  | nil => rfl
  | cons x xs ih =>
    simp only [insertByScore]
    split <;> simp [ih]

lemma length_sortDesc (l : List Comment) : (sortDesc l).length = l.length := by
  induction l with
  | nil => rfl
  | cons x xs ih =>
    show (insertByScore x (sortDesc xs)).length = _
    rw [length_insertByScore, ih, List.length_cons]

lemma filter_score_insertByScore (s : Int) (c : Comment) (l : List Comment) :
    (insertByScore c l).filter (fun x => x.score == s)
      = if c.score == s then c :: l.filter (fun x => x.score == s)
        else l.filter (fun x => x.score == s) := by
  induction l with
  | nil =>
    by_cases hc : c.score = s <;> simp [insertByScore, hc]
  | cons x xs ih =>
    simp only [insertByScore]
    split
    case isTrue hlt =>
      by_cases hc : c.score = s
      · by_cases hxs : x.score = s
        · exact absurd hlt (by omega)
        · simp [List.filter_cons, hc, hxs, ih]
      · simp [List.filter_cons, hc, ih]
    case isFalse hge =>
      by_cases hc : c.score = s <;> simp [List.filter_cons, hc]

lemma fileExists_write_self (fs : FS) (p c : String) :
    (fs.write p c).fileExists p = true := by
  simp [FS.write, FS.fileExists]

lemma dirs_write (fs : FS) (p c : String) : (fs.write p c).dirs = fs.dirs := rfl

lemma dirExists_write (fs : FS) (p c d : String) :
    (fs.write p c).dirExists d = fs.dirExists d := rfl

lemma fileExists_mkdir (fs : FS) (d q : String) :
    (fs.mkdir d).fileExists q = fs.fileExists q := by
  unfold FS.mkdir
  split <;> rfl

lemma dirExists_mkdir_self (fs : FS) (d : String) :
    (fs.mkdir d).dirExists d = true := by
  unfold FS.mkdir FS.dirExists
  split
  case isTrue h => exact h
  case isFalse h => simp

lemma dirExists_mkdir_mono {fs : FS} {e : String} (d : String)
    (h : fs.dirExists e = true) : (fs.mkdir d).dirExists e = true := by
  unfold FS.mkdir FS.dirExists at *
  split
  · exact h
  · simp only [List.contains_cons, Bool.or_eq_true]
    exact Or.inr h

lemma dirExists_rmtree_self (fs : FS) (d : String) :
    (fs.rmtree d).dirExists d = false := by
  unfold FS.rmtree FS.dirExists
  simp [List.elem_eq_true_of_mem, List.mem_filter]

lemma fileExists_write_mono {fs : FS} {q : String} (p c : String)
    (h : fs.fileExists q = true) : (fs.write p c).fileExists q = true := by
  simp only [FS.fileExists, FS.write, List.any_eq_true] at h ⊢
  obtain ⟨x, hx, hq⟩ := h
  simp only [decide_eq_true_eq] at hq
  by_cases hpq : x.1 = p
  · exact ⟨(p, c), List.mem_cons_self _ _, by simp [← hq, hpq]⟩
  · exact ⟨x, List.mem_cons_of_mem _ (List.mem_filter.mpr ⟨hx, by simp [hpq]⟩),
      by simp [hq]⟩

lemma dirs_download_image (env : Env) (u o i : String) (fs : FS) :
    ((download_image env u o i fs).2).dirs = fs.dirs := by
  unfold download_image
  split
  · rfl
  · split
    · split <;> rfl
    · rfl

lemma fileExists_download_image_mono (env : Env) (u o i : String) {fs : FS}
    {q : String} (h : fs.fileExists q = true) :
    ((download_image env u o i fs).2).fileExists q = true := by
  unfold download_image
  split
  · exact h
  · split
    · split <;> exact fileExists_write_mono _ _ h
    · exact h

lemma dirs_download_video (env : Env) (u o i : String) (fs : FS) :
    ((download_video env u o i fs).2).dirs = fs.dirs := by
  unfold download_video
  split
  · rfl
  · split
    · split <;> rfl
    · rfl

lemma fileExists_download_video_mono (env : Env) (u o i : String) {fs : FS}
    {q : String} (h : fs.fileExists q = true) :
    ((download_video env u o i fs).2).fileExists q = true := by
  unfold download_video
  split
  · exact h
  · split
    · split <;> exact fileExists_write_mono _ _ h
    · exact h

lemma dirs_download_with_yt_dlp (env : Env) (u o i : String) (fs : FS) :
    ((download_with_yt_dlp env u o i fs).2).dirs = fs.dirs := by
  unfold download_with_yt_dlp
  split <;> rfl

lemma fileExists_download_with_yt_dlp_mono (env : Env) (u o i : String)
    {fs : FS} {q : String} (h : fs.fileExists q = true) :
    ((download_with_yt_dlp env u o i fs).2).fileExists q = true := by
  unfold download_with_yt_dlp
  split
  · exact h
  · exact fileExists_write_mono _ _ h

lemma dirs_galleryLoop (env : Env) (pid o : String) (ids : List String)
    (acc : List String) (fs : FS) :
    ((galleryLoop env pid o ids acc fs).2).dirs = fs.dirs := by
  induction ids generalizing acc fs with
  | nil => rfl
  | cons mid rest ih =>
    simp only [galleryLoop]
    rw [ih, dirs_download_image]

lemma fileExists_galleryLoop_mono (env : Env) (pid o : String)
    (ids : List String) (acc : List String) {fs : FS} {q : String}
    (h : fs.fileExists q = true) :
    ((galleryLoop env pid o ids acc fs).2).fileExists q = true := by
  induction ids generalizing acc fs with
  | nil => exact h
  | cons mid rest ih =>
    simp only [galleryLoop]
    exact ih _ (fileExists_download_image_mono _ _ _ _ h)

lemma dirs_download_gallery (env : Env) (post : RedditPost) (o : String)
    (fs : FS) : ((download_gallery env post o fs).2).dirs = fs.dirs := by
  unfold download_gallery
  split
  · rfl
  · exact dirs_galleryLoop _ _ _ _ _ _

lemma fileExists_download_gallery_mono (env : Env) (post : RedditPost)
    (o : String) {fs : FS} {q : String} (h : fs.fileExists q = true) :
    ((download_gallery env post o fs).2).fileExists q = true := by
  unfold download_gallery
  split
  · exact h
  · exact fileExists_galleryLoop_mono _ _ _ _ _ h

lemma dirs_mediaStep (env : Env) (post : RedditPost) (u md : String)
    (fs : FS) : ((mediaStep env post u md fs).2.2).dirs = fs.dirs := by
  unfold mediaStep
  split
  · exact dirs_download_with_yt_dlp _ _ _ _ _
  · exact dirs_download_image _ _ _ _ _
  · exact dirs_download_gallery _ _ _ _
  · exact dirs_download_video _ _ _ _ _
  · rfl

lemma fileExists_mediaStep_mono (env : Env) (post : RedditPost)
    (u md : String) {fs : FS} {q : String} (h : fs.fileExists q = true) :
    ((mediaStep env post u md fs).2.2).fileExists q = true := by
  unfold mediaStep
  split
  · exact fileExists_download_with_yt_dlp_mono _ _ _ _ h
  · exact fileExists_download_image_mono _ _ _ _ h
  · exact fileExists_download_gallery_mono _ _ _ h
  · exact fileExists_download_video_mono _ _ _ _ h
  · exact h

lemma dirExists_mediaStep (env : Env) (post : RedditPost) (u md d : String)
    (fs : FS) :
    ((mediaStep env post u md fs).2.2).dirExists d = fs.dirExists d := by
  unfold FS.dirExists
  rw [dirs_mediaStep]

lemma afterText_dir (env : Env) (post : RedditPost) (pd : String)
    (files : List String) {fs : FS} {d : String}
    (hd : fs.dirExists d = true) :
    ((afterText env post pd files fs).fsOut).dirExists d = true := by
  unfold afterText
  split
  · exact hd
  · split
    · show ((mediaStep _ _ _ _ _).2.2).dirExists d = true
      rw [dirExists_mediaStep]
      exact dirExists_mkdir_mono _ hd
    · exact hd

lemma download_body_dir (env : Env) (post : RedditPost)
    (cfg : SubredditConfig) (pd : String) {fs : FS} {d : String}
    (hd : fs.dirExists d = true) :
    ((download_body env post cfg pd fs).fsOut).dirExists d = true := by
  simp only [download_body]
  repeat' split
  all_goals first
    | exact hd
    | exact afterText_dir _ _ _ _ hd

lemma afterText_ne_exn (env : Env) (post : RedditPost) (pd : String)
    (files : List String) (fs : FS) {m : String} {f : List String} {hm : Bool}
    {fs' : FS} (h : afterText env post pd files fs = BodyRes.exn m f hm fs') :
    False := by
  unfold afterText at h
  split at h
  · exact BodyRes.noConfusion h
  · split at h <;> exact BodyRes.noConfusion h

lemma download_body_exn_hm (env : Env) (post : RedditPost)
    (cfg : SubredditConfig) (pd : String) (fs : FS) {m : String}
    {f : List String} {hm : Bool} {fs' : FS}
    (h : download_body env post cfg pd fs = BodyRes.exn m f hm fs') :
    hm = false := by
  simp only [download_body] at h
  repeat' split at h
  all_goals first
    | (cases h; rfl)
    | exact absurd h (fun hh => afterText_ne_exn _ _ _ _ _ hh)

lemma pathJoin_inj {a x y : String} (h : pathJoin a x = pathJoin a y) :
    x = y := by
  have hd := congrArg String.data h
  simp only [pathJoin, String.data_append, List.append_assoc] at hd
  exact String.ext (List.append_cancel_left (List.append_cancel_left hd))

lemma pathJoin_ne_of_ne {x y : String} (a : String) (h : x ≠ y) :
    pathJoin a x ≠ pathJoin a y :=
  fun hh => h (pathJoin_inj hh)

lemma text_ne_media_path {x : String} (pd name : String)
    (hx : x.data.head? ≠ some 'm') :
    pathJoin pd x ≠ pathJoin (pathJoin pd "media") name := by
  intro h
  have hd := congrArg String.data h
  simp only [pathJoin, String.data_append, List.append_assoc] at hd
  have h2 := List.append_cancel_left (List.append_cancel_left hd)
  apply hx
  rw [h2]
  rfl

lemma underDir_pathJoin (d x : String) : underDir d (pathJoin d x) = true := by
  simp only [underDir, strPre, pathJoin]
  rw [List.isPrefixOf_iff_prefix]
  show (d ++ "/").data <+: ((d ++ "/") ++ x).data
  rw [String.data_append]
  exact List.prefix_append _ _

lemma fileExists_rmtree_under {d q : String} (h : underDir d q = true)
    (fs : FS) : (fs.rmtree d).fileExists q = false := by
  simp only [FS.rmtree, FS.fileExists]
  rw [Bool.eq_false_iff]
  intro hc
  rw [List.any_eq_true] at hc
  obtain ⟨x, hx, hq⟩ := hc
  simp only [decide_eq_true_eq] at hq
  have hf := (List.mem_filter.mp hx).2
  rw [hq, h] at hf
  simp at hf

lemma any_filter_ne {q p : String} (l : List (String × String)) (h : q ≠ p) :
    (l.filter (fun f => f.1 ≠ p)).any (fun f => f.1 = q)
      = l.any (fun f => f.1 = q) := by
  rw [List.any_filter]
  have hfun : ∀ a : String × String,
      (decide (a.1 ≠ p) && decide (a.1 = q)) = decide (a.1 = q) := by
    intro a
    by_cases haq : a.1 = q
    · have hap : a.1 ≠ p := fun hh => h (by rw [← haq, hh])
      simp [haq, hap, h]
    · simp [haq]
  simp only [hfun]

lemma fileExists_write_ne {q p : String} (h : q ≠ p) (c : String) (fs : FS) :
    (fs.write p c).fileExists q = fs.fileExists q := by
  simp only [FS.write, FS.fileExists, List.any_cons]
  have h1 : decide (p = q) = false := by
    simp only [decide_eq_false_iff_not]
    exact fun hh => h hh.symm
  rw [h1, Bool.false_or, any_filter_ne _ h]

lemma fileExists_download_image_ne (env : Env) (u o i : String) {fs : FS}
    {q : String} (hq : ∀ name, q ≠ pathJoin o name) :
    ((download_image env u o i fs).2).fileExists q = fs.fileExists q := by
  unfold download_image
  split
  · rfl
  · split
    · split <;> exact fileExists_write_ne (hq _) _ _
    · rfl

lemma fileExists_download_video_ne (env : Env) (u o i : String) {fs : FS}
    {q : String} (hq : ∀ name, q ≠ pathJoin o name) :
    ((download_video env u o i fs).2).fileExists q = fs.fileExists q := by
  unfold download_video
  split
  · rfl
  · split
    · split <;> exact fileExists_write_ne (hq _) _ _
    · rfl

lemma fileExists_download_with_yt_dlp_ne (env : Env) (u o i : String)
    {fs : FS} {q : String} (hq : ∀ name, q ≠ pathJoin o name) :
    ((download_with_yt_dlp env u o i fs).2).fileExists q
      = fs.fileExists q := by
  unfold download_with_yt_dlp
  split
  · rfl
  · exact fileExists_write_ne (hq _) _ _

lemma fileExists_galleryLoop_ne (env : Env) (pid o : String)
    (ids : List String) (acc : List String) {fs : FS} {q : String}
    (hq : ∀ name, q ≠ pathJoin o name) :
    ((galleryLoop env pid o ids acc fs).2).fileExists q
      = fs.fileExists q := by
  induction ids generalizing acc fs with
  | nil => rfl
  | cons mid rest ih =>
    simp only [galleryLoop]
    rw [ih, fileExists_download_image_ne _ _ _ _ hq]

lemma fileExists_download_gallery_ne (env : Env) (post : RedditPost)
    (o : String) {fs : FS} {q : String}
    (hq : ∀ name, q ≠ pathJoin o name) :
    ((download_gallery env post o fs).2).fileExists q = fs.fileExists q := by
  unfold download_gallery
  split
  · rfl
  · exact fileExists_galleryLoop_ne _ _ _ _ _ hq

lemma fileExists_mediaStep_ne (env : Env) (post : RedditPost)
    (u md : String) {fs : FS} {q : String}
    (hq : ∀ name, q ≠ pathJoin md name) :
    ((mediaStep env post u md fs).2.2).fileExists q = fs.fileExists q := by
  unfold mediaStep
  split
  · exact fileExists_download_with_yt_dlp_ne _ _ _ _ hq
  · exact fileExists_download_image_ne _ _ _ _ hq
  · exact fileExists_download_gallery_ne _ _ _ hq
  · exact fileExists_download_video_ne _ _ _ _ hq
  · rfl

lemma afterText_cases (env : Env) (post : RedditPost) (pd : String)
    (files : List String) (fs : FS) :
    ∃ (m : List String) (hm : Bool) (fs' : FS),
      afterText env post pd files fs = BodyRes.ok (files ++ m) [] hm fs' ∧
      (∀ q, fs.fileExists q = true → fs'.fileExists q = true) ∧
      (∀ q, (∀ name, q ≠ pathJoin (pathJoin pd "media") name) →
        fs'.fileExists q = fs.fileExists q) := by
  unfold afterText
  split
  · exact ⟨[], false, fs, by rw [List.append_nil], fun q h => h,
      fun q _ => rfl⟩
  · split
    · refine ⟨_, _, _, rfl, ?_, ?_⟩
      · intro q h
        refine fileExists_mediaStep_mono _ _ _ _ ?_
        rw [fileExists_mkdir]
        exact h
      · intro q hq
        rw [fileExists_mediaStep_ne _ _ _ _ hq, fileExists_mkdir]
    · exact ⟨[], false, fs, by rw [List.append_nil], fun q h => h,
        fun q _ => rfl⟩

lemma download_body_congr (env : Env) (post : RedditPost) (pd : String)
    (fs : FS) {c1 c2 : SubredditConfig}
    (h : c1.download_comments = c2.download_comments) :
    download_body env post c1 pd fs = download_body env post c2 pd fs := by
  unfold download_body
  rw [h]

lemma download_content_full_congr {c1 c2 : SubredditConfig}
    (h1 : c1.download_comments = c2.download_comments)
    (h2 : c1.skip_no_media = c2.skip_no_media) (env : Env)
    (post : RedditPost) (out : String) (fs : FS) :
    download_content_full env post c1 out fs
      = download_content_full env post c2 out fs := by
  unfold download_content_full
  have hb : ∀ pd fs', download_body env post c1 pd fs'
      = download_body env post c2 pd fs' :=
    fun pd fs' => download_body_congr env post pd fs' h1
  simp only [hb, h2]

lemma filter_score_sortDesc (s : Int) (l : List Comment) :
    (sortDesc l).filter (fun x => x.score == s)
      = l.filter (fun x => x.score == s) := by
  induction l with
  | nil => rfl
  | cons x xs ih =>
    show (insertByScore x (sortDesc xs)).filter _ = _
    rw [filter_score_insertByScore]
    cases h : x.score == s <;> simp [List.filter_cons, h, ih]

/-! ## Claim theorems -/

/-- C7: for every title, discussion corpus, and summarization outcome
(success with any response, or failure), the synopsis returned by
`_generate_summary` has length at most 250 characters. -/
theorem c7_synopsis_length_le_250 (title comments : String)
    (resp : Option String) :
    (generate_summary title comments resp).length ≤ 250 := by
  rcases resp with _ | s <;> simp only [generate_summary] <;> split
  case isTrue h =>
    rw [String.length_append]
    have h1 : (pyTake title 247).length ≤ 247 := length_pyTake _ _
    have h2 : ("...").length = 3 := rfl
    omega
  case isFalse h => omega
  case isTrue h =>
    rw [String.length_append]
    have h1 : (pyTake (pyStrip s) 247).length ≤ 247 := length_pyTake _ _
    have h2 : ("...").length = 3 := rfl
    omega
  case isFalse h => omega

/-- C8: when the summarization call fails, `_generate_summary` returns
exactly the title if it has at most 250 characters, else the first 247
characters of the title followed by `"..."`; the fallback is a total
function of the title alone. -/
theorem c8_fallback_exact (title comments : String) :
    generate_summary title comments none =
      (if title.length ≤ 250 then title else pyTake title 247 ++ "...") := by
  simp only [generate_summary]
  by_cases h : title.length ≤ 250
  · rw [if_neg (by omega), if_pos h]
  · rw [if_pos (by omega), if_neg h]

/-- C10: the policy validation actually performed before a fetch
(`SubredditConfig.validate`) accepts `limit = 150`, so the feed is kept and
its fetch attempted; the `[1,100]` bound exists only in the uncalled helper
`validate_limit`.  This evaluates the code at the failing input of the
claim. -/
theorem c10_limit_validation_gap :
    SubredditConfig.validate cfgLimit150 = none ∧
    feedAccepted cfgLimit150 = true ∧
    validate_limit 150 = some "Limit cannot exceed 100 posts" :=
  ⟨rfl, rfl, rfl⟩

/-- C1 (counterexample): on a gallery post whose URL ends in `.jpg`, the
code classifies `DirectImage` (the image-extension test runs before the
gallery test), while the claim's order yields `Gallery`. -/
theorem c1_counterexample :
    classify galleryImagePost = MediaKind.directImage ∧
    classify_spec galleryImagePost = MediaKind.gallery ∧
    classify galleryImagePost ≠ classify_spec galleryImagePost :=
  ⟨rfl, rfl, by decide⟩

/-- C1 (amended): for every post with a non-null URL, classification
applies its cases first-match-wins in the order: (a) external-video-host
URL yields ExternalHosted; (b) URL path extension in the image set yields
DirectImage; (c) `is_gallery` with gallery data present yields Gallery;
(d) URL path extension in the video set yields Video; (e) otherwise
None. -/
theorem c1_classification_first_match (post : RedditPost) (u : String)
    (hu : post.url = some u) :
    (isExternalHosted u = true → classify post = MediaKind.externalHosted) ∧
    (isExternalHosted u = false → is_image_url u = true →
      classify post = MediaKind.directImage) ∧
    (isExternalHosted u = false → is_image_url u = false →
      is_gallery post = true → classify post = MediaKind.gallery) ∧
    (isExternalHosted u = false → is_image_url u = false →
      is_gallery post = false → is_video u = true →
      classify post = MediaKind.video) ∧
    (isExternalHosted u = false → is_image_url u = false →
      is_gallery post = false → is_video u = false →
      classify post = MediaKind.noMedia) := by
  unfold classify
  rw [hu]
  refine ⟨?_, ?_, ?_, ?_, ?_⟩ <;> intros <;> simp_all

/-- Witness for C1: the amended order applied at the concrete gallery+jpg
post, discharging the hypotheses by evaluation. -/
theorem c1_classification_first_match_witness :
    classify galleryImagePost = MediaKind.directImage :=
  (c1_classification_first_match galleryImagePost "https://example.com/a.jpg"
    rfl).2.1 (by decide) (by decide)

/-- C6: for every node sequence and cap, the ranking of
`_convert_submission_to_post` returns the non-stickied nodes sorted by
score descending (pairwise), of length `min cap (count of non-stickied
nodes)`, with ties kept in original order (filtering the result to any
single score value gives a prefix of the same filtering of the input);
cap 0 yields the empty sequence; and on scores `[3,10,10,1,7]` with cap 3
it returns the two score-10 nodes in original relative order then the
score-7 node. -/
theorem c6_ranking (nodes : List Comment) (cap : Nat) :
    List.Pairwise (fun a b => b.score ≤ a.score) (rank nodes cap) ∧
    (rank nodes cap).length
      = min cap ((nodes.filter (fun c => !c.stickied)).length) ∧
    (∀ s : Int, (rank nodes cap).filter (fun c => c.score == s)
      <+: ((nodes.filter (fun c => !c.stickied)).filter
            (fun c => c.score == s))) ∧
    rank nodes 0 = [] ∧
    rank scenarioComments 3
      = [mkComment 10 "c1", mkComment 10 "c2", mkComment 7 "c4"] := by
  refine ⟨?_, ?_, ?_, ?_, by decide⟩
  · exact List.Pairwise.sublist (List.take_sublist _ _) (sortDesc_pairwise _)
  · rw [rank, List.length_take, length_sortDesc]
  · intro s
    have h1 := List.IsPrefix.filter (fun c => c.score == s)
      (List.take_prefix cap (sortDesc (nodes.filter (fun c => !c.stickied))))
    rw [filter_score_sortDesc] at h1
    exact h1
  · simp [rank]

/-- C9 (counterexample): a mid-stream network failure during the chunked
write of `_download_image` returns `None` (empty result) but leaves the
partially written file on disk — the claim's "no partial file left behind"
is false. -/
theorem c9_counterexample :
    (download_image envMidFail "https://example.com/a.jpg" "d" "abc"
      fsEmpty).1 = none ∧
    ((download_image envMidFail "https://example.com/a.jpg" "d" "abc"
      fsEmpty).2).fileExists "d/abc.jpg" = true :=
  ⟨rfl, rfl⟩

/-- C9 (amended): for every direct-image retrieval, a request-time network
failure or a non-2xx response yields an empty result and an untouched
filesystem (no file is created); a mid-stream failure during the chunked
write also yields an empty result, but the partially written file remains
on disk (the code does not remove it). -/
theorem c9_image_retrieval_failures (env : Env) (url dir pid : String)
    (fs : FS) :
    (env.http url = none → download_image env url dir pid fs = (none, fs)) ∧
    (∀ r : HttpResp, env.http url = some r →
      ¬(200 ≤ r.status ∧ r.status ≤ 299) →
      download_image env url dir pid fs = (none, fs)) ∧
    (∀ (r : HttpResp) (k : Nat), env.http url = some r → r.status = 200 →
      r.failAfter = some k →
      (download_image env url dir pid fs).1 = none ∧
      ((download_image env url dir pid fs).2).fileExists
        (pathJoin dir (pid ++ imageExtension url r)) = true) := by
  refine ⟨?_, ?_, ?_⟩
  · intro h
    simp [download_image, h]
  · intro r hr hst
    have h200 : ¬ r.status = 200 := by omega
    simp [download_image, hr, h200]
  · intro r k hr h200 hfa
    simp [download_image, hr, h200, hfa, fileExists_write_self]

/-- C2: the `download_media` policy flag is never read by
`download_content` — the function is invariant under changing it — and at
a concrete post with an image URL and `download_media=false`, the `media`
subdirectory is still created and the image still retrieved.  The media
step runs iff the post URL is truthy, regardless of the flag. -/
theorem c2_download_media_flag_ignored :
    (∀ (env : Env) (post : RedditPost) (cfg : SubredditConfig)
      (out : String) (fs : FS) (b : Bool),
      download_content_full env post { cfg with download_media := b } out fs
        = download_content_full env post cfg out fs) ∧
    cfgNoMedia.download_media = false ∧
    ((download_content envHttpOk galleryImagePost cfgNoMedia "out"
      fsEmpty).2).dirExists "out/2026-10-12/pics_abc/media" = true ∧
    ((download_content envHttpOk galleryImagePost cfgNoMedia "out"
      fsEmpty).2).fileExists "out/2026-10-12/pics_abc/media/abc.jpg"
      = true := by
  refine ⟨?_, rfl, rfl, rfl⟩
  intro env post cfg out fs b
  exact download_content_full_congr rfl rfl env post out fs

/-- C3 (counterexample): with discussion enabled
(`download_comments=true`, `max_comments=5 > 0`) but an empty discussion,
a successful write produces neither a comments file nor a summary file —
the code guards the whole block on `config.download_comments and
post.comments`, so the claim's "including when the post's discussion is
empty" fails. -/
theorem c3_counterexample :
    cfgBase.download_comments = true ∧
    cfgBase.max_comments = 5 ∧
    postEmpty.comments = [] ∧
    (download_content envBase postEmpty cfgBase "out" fsEmpty).1.success
      = true ∧
    ((download_content envBase postEmpty cfgBase "out" fsEmpty).2).fileExists
      "out/2026-10-12/pics_abc/post-summary.txt" = false ∧
    ((download_content envBase postEmpty cfgBase "out" fsEmpty).2).fileExists
      "out/2026-10-12/pics_abc/comments.txt" = false :=
  ⟨rfl, rfl, rfl, rfl, rfl, rfl⟩

/-- C3 (amended): for every post processed with discussion saving enabled,
a non-null URL and no I/O failure, the write succeeds, and: when the
bundle is kept (media retrieved or `skip_no_media=false`) the comments
file and then the summary file are written iff the post's collected
discussion is non-empty — for an empty discussion neither file is written,
and neither appears on disk if the bundle directory did not already
contain it; when the bundle is discarded, the outcome lists no files and
neither file exists on disk.  Hence the summary file exists after a
successful write iff the discussion was non-empty and the bundle was
kept. -/
theorem c3_summary_written (env : Env) (post : RedditPost)
    (cfg : SubredditConfig) (out : String) (fs : FS) (u : String)
    (hwe : ∀ p, env.writeError p = none)
    (hdc : cfg.download_comments = true)
    (hurl : post.url = some u) :
    (download_content env post cfg out fs).1.success = true ∧
    ((cfg.skip_no_media
        && !(download_content_full env post cfg out fs).2) = false →
      (post.comments ≠ [] →
        (∃ m, (download_content env post cfg out fs).1.downloaded_files
          = [pathJoin (postDirOf env post out) "post_info.txt",
             pathJoin (postDirOf env post out) "title.txt",
             pathJoin (postDirOf env post out) "url.txt",
             pathJoin (postDirOf env post out) "comments.txt",
             pathJoin (postDirOf env post out) "post-summary.txt"] ++ m) ∧
        ((download_content env post cfg out fs).2).fileExists
          (pathJoin (postDirOf env post out) "comments.txt") = true ∧
        ((download_content env post cfg out fs).2).fileExists
          (pathJoin (postDirOf env post out) "post-summary.txt") = true) ∧
      (post.comments = [] →
        (∃ m, (download_content env post cfg out fs).1.downloaded_files
          = [pathJoin (postDirOf env post out) "post_info.txt",
             pathJoin (postDirOf env post out) "title.txt",
             pathJoin (postDirOf env post out) "url.txt"] ++ m) ∧
        (fs.fileExists (pathJoin (postDirOf env post out) "comments.txt")
            = false →
          ((download_content env post cfg out fs).2).fileExists
            (pathJoin (postDirOf env post out) "comments.txt") = false) ∧
        (fs.fileExists (pathJoin (postDirOf env post out) "post-summary.txt")
            = false →
          ((download_content env post cfg out fs).2).fileExists
            (pathJoin (postDirOf env post out) "post-summary.txt")
            = false))) ∧
    ((cfg.skip_no_media
        && !(download_content_full env post cfg out fs).2) = true →
      (download_content env post cfg out fs).1.downloaded_files = [] ∧
      ((download_content env post cfg out fs).2).fileExists
        (pathJoin (postDirOf env post out) "comments.txt") = false ∧
      ((download_content env post cfg out fs).2).fileExists
        (pathJoin (postDirOf env post out) "post-summary.txt") = false) := by
  by_cases hcom : post.comments = []
  · have hie : post.comments.isEmpty = true := by rw [hcom]; rfl
    simp only [download_content, download_content_full, download_body,
      postDirOf, hwe, hurl, hdc, hie, Bool.not_true, Bool.and_false,
      Bool.false_eq_true, if_false, ite_false]
    obtain ⟨m, hm, fs', heq, hmono, hne⟩ := afterText_cases env post
      (pathJoin (pathJoin out env.today) (post.subreddit ++ "_" ++ post.id))
      _ _
    rw [heq]
    dsimp only
    by_cases hk : (cfg.skip_no_media && !hm) = true
    · rw [if_pos hk]
      refine ⟨rfl, ?_, ?_⟩
      · intro hkept
        rw [hkept] at hk
        exact absurd hk (by decide)
      · intro _
        refine ⟨rfl, ?_, ?_⟩
        · exact fileExists_rmtree_under (underDir_pathJoin _ _) _
        · exact fileExists_rmtree_under (underDir_pathJoin _ _) _
    · rw [if_neg hk]
      refine ⟨rfl, ?_, ?_⟩
      · intro _
        constructor
        · intro hne2
          exact absurd hcom hne2
        · intro _
          refine ⟨⟨m, rfl⟩, ?_, ?_⟩
          · intro hf0
            rw [hne _ (fun name => text_ne_media_path _ name (by decide)),
              fileExists_write_ne (pathJoin_ne_of_ne _ (by decide)),
              fileExists_write_ne (pathJoin_ne_of_ne _ (by decide)),
              fileExists_write_ne (pathJoin_ne_of_ne _ (by decide)),
              fileExists_mkdir, fileExists_mkdir]
            exact hf0
          · intro hf0
            rw [hne _ (fun name => text_ne_media_path _ name (by decide)),
              fileExists_write_ne (pathJoin_ne_of_ne _ (by decide)),
              fileExists_write_ne (pathJoin_ne_of_ne _ (by decide)),
              fileExists_write_ne (pathJoin_ne_of_ne _ (by decide)),
              fileExists_mkdir, fileExists_mkdir]
            exact hf0
      · intro hk2
        exact absurd hk2 hk
  · have hie : post.comments.isEmpty = false := by
      cases hc : post.comments
      · exact absurd hc hcom
      · rfl
    simp only [download_content, download_content_full, download_body,
      postDirOf, hwe, hurl, hdc, hie, Bool.not_false, Bool.and_true,
      Bool.true_and, if_true, ite_true]
    obtain ⟨m, hm, fs', heq, hmono, hne⟩ := afterText_cases env post
      (pathJoin (pathJoin out env.today) (post.subreddit ++ "_" ++ post.id))
      _ _
    rw [heq]
    dsimp only
    by_cases hk : (cfg.skip_no_media && !hm) = true
    · rw [if_pos hk]
      refine ⟨rfl, ?_, ?_⟩
      · intro hkept
        rw [hkept] at hk
        exact absurd hk (by decide)
      · intro _
        refine ⟨rfl, ?_, ?_⟩
        · exact fileExists_rmtree_under (underDir_pathJoin _ _) _
        · exact fileExists_rmtree_under (underDir_pathJoin _ _) _
    · rw [if_neg hk]
      refine ⟨rfl, ?_, ?_⟩
      · intro _
        constructor
        · intro _
          refine ⟨⟨m, rfl⟩, ?_, ?_⟩
          · exact hmono _ (fileExists_write_mono _ _
              (fileExists_write_self _ _ _))
          · exact hmono _ (fileExists_write_self _ _ _)
        · intro hemp
          exact absurd hemp hcom
      · intro hk2
        exact absurd hk2 hk

/-- Witness for C3: the amended statement applied to a concrete post with
one comment, every hypothesis (write oracle, flags, URL, kept bundle,
non-empty discussion) discharged by evaluation; the summary file exists on
disk after the call. -/
theorem c3_summary_written_witness :
    ((download_content envBase postOneComment cfgBase "out"
      fsEmpty).2).fileExists
      (pathJoin (postDirOf envBase postOneComment "out")
        "post-summary.txt") = true :=
  (((c3_summary_written envBase postOneComment cfgBase "out" fsEmpty ""
      (fun _ => rfl) rfl rfl).2.1 rfl).1 (by decide)).2.2

/-- C4 (counterexample): with `skip_no_media=true` and no media retrieved,
an unexpected exception (here: opening `post_info.txt` raises) makes
`download_content` return `success=false` with the exception message — not
the claimed `success=true, writtenPaths=[], errors=[]` — although the
directory is indeed removed. -/
theorem c4_counterexample :
    cfgSkip.skip_no_media = true ∧
    (download_content_full envInfoFail postEmpty cfgSkip "out" fsEmpty).2
      = false ∧
    (download_content envInfoFail postEmpty cfgSkip "out" fsEmpty).1
      = ⟨false, [], ["disk full"]⟩ ∧
    (download_content envInfoFail postEmpty cfgSkip "out" fsEmpty).1
      ≠ ⟨true, [], []⟩ ∧
    ((download_content envInfoFail postEmpty cfgSkip "out"
      fsEmpty).2).dirExists (postDirOf envInfoFail postEmpty "out")
      = false :=
  ⟨rfl, rfl, rfl, by decide, rfl⟩

/-- C4 (amended): the bundle directory exists after `download_content`
returns iff media was retrieved or `skip_no_media` is false — in every
execution, including exceptional ones; and when the call completes without
an unexpected exception (`success=true`) with `skip_no_media=true` and no
media retrieved, the outcome is exactly
`success=true, writtenPaths=[], errors=[]`. -/
theorem c4_discard_invariant (env : Env) (post : RedditPost)
    (cfg : SubredditConfig) (out : String) (fs : FS) :
    ((download_content_full env post cfg out fs).1.2).dirExists
        (postDirOf env post out)
      = ((download_content_full env post cfg out fs).2
          || !cfg.skip_no_media) ∧
    ((download_content_full env post cfg out fs).1.1.success = true →
      cfg.skip_no_media = true →
      (download_content_full env post cfg out fs).2 = false →
      (download_content_full env post cfg out fs).1.1
        = ⟨true, [], []⟩) := by
  have hd0 : ((fs.mkdir (pathJoin out env.today)).mkdir
      (pathJoin (pathJoin out env.today)
        (post.subreddit ++ "_" ++ post.id))).dirExists
      (pathJoin (pathJoin out env.today) (post.subreddit ++ "_" ++ post.id))
      = true :=
    dirExists_mkdir_self _ _
  simp only [download_content_full, postDirOf]
  cases hb : download_body env post cfg
      (pathJoin (pathJoin out env.today) (post.subreddit ++ "_" ++ post.id))
      ((fs.mkdir (pathJoin out env.today)).mkdir
        (pathJoin (pathJoin out env.today)
          (post.subreddit ++ "_" ++ post.id))) with
  | ok f e hm fs2 =>
    have hdir : fs2.dirExists
        (pathJoin (pathJoin out env.today)
          (post.subreddit ++ "_" ++ post.id)) = true := by
      have h := download_body_dir env post cfg
        (pathJoin (pathJoin out env.today)
          (post.subreddit ++ "_" ++ post.id)) hd0
      rw [hb] at h
      exact h
    by_cases hs : cfg.skip_no_media = true <;> cases hm <;>
      simp [hs, hdir, dirExists_rmtree_self, Bool.not_eq_true] at *
  | exn m f hm fs2 =>
    have hhm : hm = false := download_body_exn_hm _ _ _ _ _ hb
    subst hhm
    have hdir : fs2.dirExists
        (pathJoin (pathJoin out env.today)
          (post.subreddit ++ "_" ++ post.id)) = true := by
      have h := download_body_dir env post cfg
        (pathJoin (pathJoin out env.today)
          (post.subreddit ++ "_" ++ post.id)) hd0
      rw [hb] at h
      exact h
    by_cases hs : cfg.skip_no_media = true <;>
      simp [hs, hdir, dirExists_rmtree_self, Bool.not_eq_true] at *

/-- Witness for C4: the amended statement's conditional part applied to a
concrete discard run (empty URL, no media, `skip_no_media=true`), all
hypotheses discharged by evaluation. -/
theorem c4_discard_invariant_witness :
    (download_content_full envBase postEmpty cfgSkip "out" fsEmpty).1.1
      = ⟨true, [], []⟩ :=
  (c4_discard_invariant envBase postEmpty cfgSkip "out" fsEmpty).2 rfl rfl rfl

/-- C5: `download_content` never propagates an exception: every call
returns either `success=true`, or `success=false` with the raised
exception's message as the sole error, and in the failing case the
directory is cleaned up under the discard policy; at the concrete
malformed post with `url=None`, the `TypeError` raised while writing
`url.txt` is caught and reported this way. -/
theorem c5_write_never_raises (env : Env) (post : RedditPost)
    (cfg : SubredditConfig) (out : String) (fs : FS) :
    (((download_content env post cfg out fs).1.success = true) ∨
      ((download_content env post cfg out fs).1.success = false ∧
        ∃ m, (download_content env post cfg out fs).1.errors = [m])) ∧
    ((download_content env post cfg out fs).1.success = false →
      cfg.skip_no_media = true →
      ((download_content env post cfg out fs).2).dirExists
        (postDirOf env post out) = false) ∧
    (download_content envBase postNoUrl cfgBase "out" fsEmpty).1
      = ⟨false,
          [pathJoin (postDirOf envBase postNoUrl "out") "post_info.txt",
           pathJoin (postDirOf envBase postNoUrl "out") "title.txt"],
          ["write() argument must be str, not None"]⟩ := by
  have h : (((download_content env post cfg out fs).1.success = true) ∨
      ((download_content env post cfg out fs).1.success = false ∧
        ∃ m, (download_content env post cfg out fs).1.errors = [m])) ∧
      ((download_content env post cfg out fs).1.success = false →
        cfg.skip_no_media = true →
        ((download_content env post cfg out fs).2).dirExists
          (postDirOf env post out) = false) := by
    simp only [download_content, download_content_full, postDirOf]
    cases hb : download_body env post cfg
        (pathJoin (pathJoin out env.today) (post.subreddit ++ "_" ++ post.id))
        ((fs.mkdir (pathJoin out env.today)).mkdir
          (pathJoin (pathJoin out env.today)
            (post.subreddit ++ "_" ++ post.id))) with
    | ok f e hm fs2 =>
      by_cases hs : cfg.skip_no_media = true <;> cases hm <;> simp [hs]
    | exn m f hm fs2 =>
      have hhm : hm = false := download_body_exn_hm _ _ _ _ _ hb
      subst hhm
      by_cases hs : cfg.skip_no_media = true <;>
        cases hd2 : fs2.dirExists
          (pathJoin (pathJoin out env.today)
            (post.subreddit ++ "_" ++ post.id)) <;>
        simp [hs, hd2, dirExists_rmtree_self]
  exact ⟨h.1, h.2, rfl⟩

/-- Witness for C5: the cleanup-on-failure part applied to the concrete
failing run, hypotheses discharged by evaluation. -/
theorem c5_write_never_raises_witness :
    ((download_content envInfoFail postEmpty cfgSkip "out"
      fsEmpty).2).dirExists (postDirOf envInfoFail postEmpty "out")
      = false :=
  (c5_write_never_raises envInfoFail postEmpty cfgSkip "out"
    fsEmpty).2.1 rfl rfl

/-- Witness for C9: the amended failure behaviour applied to the concrete
mid-stream-failure environment. -/
theorem c9_image_retrieval_failures_witness :
    (download_image envMidFail "https://example.com/a.jpg" "d" "abc"
      fsEmpty).1 = none ∧
    ((download_image envMidFail "https://example.com/a.jpg" "d" "abc"
      fsEmpty).2).fileExists
      (pathJoin "d" ("abc" ++ imageExtension "https://example.com/a.jpg"
        respMidFail)) = true :=
  (c9_image_retrieval_failures envMidFail "https://example.com/a.jpg" "d"
    "abc" fsEmpty).2.2 respMidFail 1 rfl rfl rfl

end RedditBot
